import Mathlib

/-!
Verification development for the hermes e-mail generator
(`pkg/mails/hermes.go` of Unknowns24/hermes).

The Go code is shallowly embedded: Go structs become Lean structures with
the same field names, Go value semantics becomes plain functional data flow,
and the pointer-receiver mutation of the `Hermes` engine configuration is
made explicit by returning the post-call state of the receiver.  The external
libraries the pipeline calls (html/template, premailer, html2text,
blackfriday) are modelled as an oracle of arbitrary functions (`Ext`), since
their internals are not part of this repository; the pipeline's structure is
what is embedded and verified.
-/

namespace HermesMail

/-- The `Theme` interface (hermes.go lines 24-28) modelled by its observable
data: a name and the two template texts its three methods return. -/
structure Theme where
  Name : String
  HTMLTemplate : String
  PlainTextTemplate : String
deriving DecidableEq

/-- Struct `Branding` (hermes.go lines 40-46): appears in header and footer. -/
structure Branding where
  Name : String
  Link : String
  Logo : String
  Copyright : String
  TroubleText : String
deriving DecidableEq

/-- Struct `Hermes` (hermes.go lines 16-21): the engine configuration.  The Go
`Theme` interface field may be nil, hence `Option Theme`; `TextDirection`
is a string type in Go. -/
structure Hermes where
  Theme : Option Theme
  Brand : Branding
  TextDirection : String
  DisableCSSInlining : Bool
deriving DecidableEq

/-- Struct `Entry` (hermes.go lines 79-82). -/
structure Entry where
  Key : String
  Value : String
deriving DecidableEq

/-- Struct `Columns` (hermes.go lines 91-94).  The two Go maps are modelled as
association lists; the pipeline never populates them itself. -/
structure Columns where
  CustomWidth : List (String × String)
  CustomAlignment : List (String × String)
deriving DecidableEq

/-- Struct `Table` (hermes.go lines 85-88). -/
structure Table where
  Data : List (List Entry)
  Columns : Columns
deriving DecidableEq

/-- Struct `Button` (hermes.go lines 104-109). -/
structure Button where
  Color : String
  TextColor : String
  Text : String
  Link : String
deriving DecidableEq

/-- Struct `Action` (hermes.go lines 97-101). -/
structure Action where
  Instructions : String
  Button : Button
  InviteCode : String
deriving DecidableEq

/-- Type `Markdown` (hermes.go line 55) is a string type in Go. -/
abbrev Markdown := String

/-- Struct `Body` (hermes.go lines 58-69): the body of the email. -/
structure Body where
  Name : String
  Intros : List String
  Dictionary : List Entry
  Table : Table
  Actions : List Action
  Outros : List String
  Greeting : String
  Signature : String
  Title : String
  FreeMarkdown : Markdown
deriving DecidableEq

/-- Struct `Email` (hermes.go lines 49-51). -/
structure Email where
  Body : Body
deriving DecidableEq

/-- Struct `Template` (hermes.go lines 113-116): the root object handed to the
template engine, pairing the (dereferenced) engine configuration with the
email. -/
structure Template where
  Hermes : Hermes
  Email : Email
deriving DecidableEq

/-- Method `Markdown.ToHTML` (hermes.go lines 72-74) converts Markdown to HTML by
calling `blackfriday.Run`, an external pure function from bytes to bytes
with no error return; it is modelled as an arbitrary function
`run : String → String` supplied as an oracle. -/
def Markdown.ToHTML (run : String → String) (c : Markdown) : String :=
  run c

/-! ### mergo.Merge semantics

`SetDefaultEmailValues` and `SetDefaultHermesValues` call
`mergo.Merge(dst, src)` without options.  In that mode mergo walks the two
structs field by field and sets a destination field from the source only
when the source field is non-zero and the destination field is a zero
value; nested structs are merged recursively, a nil interface is filled
from the source, and a non-nil interface (here: a theme, a pointer to a
fieldless struct) is left as it is.  The helpers below state that per-field
rule for each field kind occurring in `Email` and `Hermes`. -/

/-- mergo rule for a string field: filled from the source only when the
destination is the zero value `""` and the source is not. -/
def mergoString (dst src : String) : String :=
  if src ≠ "" ∧ dst = "" then src else dst

/-- mergo rule for a slice field: replaced by the source slice only when the
destination is empty and the source is not.  (Both default slices in the
code are empty, so in the pipeline this is always the identity.) -/
def mergoList {α : Type} [DecidableEq α] (dst src : List α) : List α :=
  if src ≠ [] ∧ dst = [] then src else dst

/-- mergo rule for a bool field: set from the source only when the source is
not the zero value `false` and the destination is. -/
def mergoBool (dst src : Bool) : Bool :=
  if src ≠ false ∧ dst = false then src else dst

/-- mergo rule for a map field: source entries are added for keys the
destination lacks.  (The default tables carry only nil maps, so in the
pipeline this is always the identity.) -/
def mergoAssoc (dst src : List (String × String)) : List (String × String) :=
  src.foldl (fun d p => if d.any (fun q => q.1 = p.1) then d else d ++ [p]) dst

/-- mergo rule for the `Theme` interface field: a nil interface is set from
the source; a non-nil one is kept (mergo then recurses into the pointed-to
theme struct, which for every theme value here has no data fields to merge). -/
def mergoTheme (dst src : Option Theme) : Option Theme :=
  match dst with
  | none => src
  | some t => some t

/-- Field-wise mergo merge of two `Columns` values. -/
def mergoColumns (dst src : Columns) : Columns :=
  { CustomWidth := mergoAssoc dst.CustomWidth src.CustomWidth
    CustomAlignment := mergoAssoc dst.CustomAlignment src.CustomAlignment }

/-- Field-wise mergo merge of two `Table` values. -/
def mergoTable (dst src : Table) : Table :=
  { Data := mergoList dst.Data src.Data
    Columns := mergoColumns dst.Columns src.Columns }

/-- Field-wise mergo merge of two `Body` values. -/
def mergoBody (dst src : Body) : Body :=
  { Name := mergoString dst.Name src.Name
    Intros := mergoList dst.Intros src.Intros
    Dictionary := mergoList dst.Dictionary src.Dictionary
    Table := mergoTable dst.Table src.Table
    Actions := mergoList dst.Actions src.Actions
    Outros := mergoList dst.Outros src.Outros
    Greeting := mergoString dst.Greeting src.Greeting
    Signature := mergoString dst.Signature src.Signature
    Title := mergoString dst.Title src.Title
    FreeMarkdown := mergoString dst.FreeMarkdown src.FreeMarkdown }

/-- Field-wise mergo merge of two `Email` values. -/
def mergoEmail (dst src : Email) : Email :=
  { Body := mergoBody dst.Body src.Body }

/-- Field-wise mergo merge of two `Branding` values. -/
def mergoBranding (dst src : Branding) : Branding :=
  { Name := mergoString dst.Name src.Name
    Link := mergoString dst.Link src.Link
    Logo := mergoString dst.Logo src.Logo
    Copyright := mergoString dst.Copyright src.Copyright
    TroubleText := mergoString dst.TroubleText src.TroubleText }

/-- Field-wise mergo merge of two `Hermes` values. -/
def mergoHermes (dst src : Hermes) : Hermes :=
  { Theme := mergoTheme dst.Theme src.Theme
    Brand := mergoBranding dst.Brand src.Brand
    TextDirection := mergoString dst.TextDirection src.TextDirection
    DisableCSSInlining := mergoBool dst.DisableCSSInlining src.DisableCSSInlining }

/-- The Go zero value of `Columns`. -/
def Columns.zero : Columns := { CustomWidth := [], CustomAlignment := [] }

/-- The Go zero value of `Table`. -/
def Table.zero : Table := { Data := [], Columns := Columns.zero }

/-- Modelled from the spec: the baseline built-in theme `themes.Default`
(package `pkg/themes`, not under src).  Only its existence and the fact that
it carries two fixed template texts matter to the claims; the texts
themselves are opaque fixed strings here. -/
def defaultTheme : Theme :=
  { Name := "default"
    HTMLTemplate := "default theme html template"
    PlainTextTemplate := "default theme plaintext template" }

/-- The default email of `SetDefaultEmailValues` (hermes.go lines 120-128):
empty intro/dictionary/outro sequences, signature "Yours truly", greeting
"Hi"; every other field is the Go zero value. -/
def defaultEmail : Email :=
  { Body :=
    { Name := ""
      Intros := []
      Dictionary := []
      Table := Table.zero
      Actions := []
      Outros := []
      Greeting := "Hi"
      Signature := "Yours truly"
      Title := ""
      FreeMarkdown := "" } }

/-- The default engine configuration of `SetDefaultHermesValues`
(hermes.go lines 137-145): the built-in default theme, text direction
"ltr", brand name "Hermes" and the two boilerplate strings; every other
field is the Go zero value. -/
def defaultHermes : Hermes :=
  { Theme := some defaultTheme
    TextDirection := "ltr"
    Brand :=
      { Name := "Hermes"
        Link := ""
        Logo := ""
        Copyright := "Copyright © 2024 Hermes. All rights reserved."
        TroubleText := "If you\u2019re having trouble with the button \x27\x7bACTION\x7d\x27, copy and paste the URL below into your web browser." }
    DisableCSSInlining := false }

/-- Function `SetDefaultEmailValues` (hermes.go lines 118-133): merges the given
email with the default one; the default overrides all zero values.  The Go
function returns the error of `mergo.Merge`, which is always nil for this
fixed pair of identically-typed addressable struct values, so the merge is
modelled as a total function. -/
def SetDefaultEmailValues (e : Email) : Email :=
  mergoEmail e defaultEmail

/-- Function `SetDefaultHermesValues` (hermes.go lines 136-153): merges the given
engine configuration with the default one; the default overrides all zero
values.  As with the email merge, `mergo.Merge` cannot fail here, so the
error return (lines 148-152) is always nil and the merge is modelled as a
total function. -/
def SetDefaultHermesValues (h : Hermes) : Hermes :=
  mergoHermes h defaultHermes

/-! ### The rendering pipeline

`generateTemplate` (hermes.go lines 177-217) calls four external library
operations: parsing the template text (`template.New(...).Parse`, which
returns a parsed template handle or an error), executing the parsed
template on a `Template` value (`t.Execute`), building a premailer from the
rendered string (`premailer.NewPremailerFromString`), and running the CSS
inliner (`prem.Transform`).  `GeneratePlainText` additionally calls
`html2text.FromString`, which by its own implementation returns the empty
string whenever its error is non-nil, so it is modelled with `Except`.
These five operations are collected in an oracle `Ext`, with abstract types
`Tmpl` for parsed template handles and `Prem` for premailer objects. -/

/-- Go's `error` values, modelled by their message. -/
abbrev GoError := String

/-- A Go `(string, error)` return pair. -/
abbrev GoStr := String × Option GoError

/-- The oracle of external library operations used by the pipeline. -/
structure Ext (Tmpl Prem : Type) where
  parse : String → Except GoError Tmpl
  execute : Tmpl → Template → Except GoError String
  premNew : String → Except GoError Prem
  premTransform : Prem → Except GoError String
  html2text : String → Except GoError String

/-- Method dispatch on the Go `Theme` interface value (`h.Theme.HTMLTemplate()`
at line 161, `h.Theme.PlainTextTemplate()` at line 170).  A nil interface
would panic in Go; both call sites run after `SetDefaultHermesValues`, which
always leaves a non-nil theme, so the `none` branch is unreachable in the
pipeline and carries a dummy theme. -/
def themeVal : Option Theme → Theme
  | some t => t
  | none => { Name := "", HTMLTemplate := "", PlainTextTemplate := "" }

/-- Function `generateTemplate` (hermes.go lines 177-217).  The `email` parameter is
passed by value, so `email.SetDefaultEmailValues()` (line 178, a pointer
method on the local copy) is modelled by shadowing the local binding; the
receiver `h` is only read.  Error branches each return `("",` the error`)`
exactly as in the source.  When `DisableCSSInlining` is set, the rendered
string is returned before any premailer call (lines 200-203). -/
def generateTemplate {Tmpl Prem : Type} (ext : Ext Tmpl Prem)
    (h : Hermes) (email : Email) (tplt : String) : GoStr :=
  let email := SetDefaultEmailValues email
  match ext.parse tplt with
  | .error e => ("", some e)
  | .ok t =>
    match ext.execute t { Hermes := h, Email := email } with
    | .error e => ("", some e)
    | .ok res =>
      if h.DisableCSSInlining then (res, none)
      else
        match ext.premNew res with
        | .error e => ("", some e)
        | .ok prem =>
          match ext.premTransform prem with
          | .error e => ("", some e)
          | .ok html => (html, none)

/-- Function `GenerateHTML` (hermes.go lines 156-162).  The receiver is `*Hermes`,
so `SetDefaultHermesValues` mutates the caller's configuration in place;
the post-call states of the caller's `Hermes` and `Email` variables are
returned alongside the Go `(string, error)` result (the `Email` is passed
by value, so its post-call state is the argument itself). -/
def GenerateHTML {Tmpl Prem : Type} (ext : Ext Tmpl Prem)
    (h : Hermes) (email : Email) : GoStr × Hermes × Email :=
  let h := SetDefaultHermesValues h
  (generateTemplate ext h email (themeVal h.Theme).HTMLTemplate, h, email)

/-- Lines 170-174 of hermes.go: abort with `("",` the error`)` when
`generateTemplate` failed, otherwise hand its string to
`html2text.FromString` (whose `(string, error)` return is passed through
unchanged at line 174; the library itself returns `""` whenever its error
is non-nil, which the `Except` model reflects). -/
def plainTextFinish {Tmpl Prem : Type} (ext : Ext Tmpl Prem) (r : GoStr) : GoStr :=
  match r.2 with
  | some e => ("", some e)
  | none =>
    match ext.html2text r.1 with
    | .error e => ("", some e)
    | .ok s => (s, none)

/-- Function `GeneratePlainText` (hermes.go lines 165-175): merge engine defaults,
run `generateTemplate` on the plain-text template, then pass its result to
`html2text` via `plainTextFinish`.  Post-call states of the caller's
variables are returned as in `GenerateHTML`; they are the same whichever
branch returns. -/
def GeneratePlainText {Tmpl Prem : Type} (ext : Ext Tmpl Prem)
    (h : Hermes) (email : Email) : GoStr × Hermes × Email :=
  let h := SetDefaultHermesValues h
  (plainTextFinish ext (generateTemplate ext h email (themeVal h.Theme).PlainTextTemplate),
    h, email)

/-! ### Pipelines as the spec words them (for refinement comparison) -/

/-- Following the spec's words (§4.6): `GeneratePlainText(email)`: merge
engine defaults → merge email defaults → render plain-text template →
convert to plain text → return string — with no CSS-inlining step, which
the spec (§2 step list 2→4→6) assigns to the HTML path only. -/
def specPlainTextPipeline {Tmpl Prem : Type} (ext : Ext Tmpl Prem)
    (h : Hermes) (email : Email) : GoStr :=
  let h := SetDefaultHermesValues h
  let email := SetDefaultEmailValues email
  match ext.parse (themeVal h.Theme).PlainTextTemplate with
  | .error e => ("", some e)
  | .ok t =>
    match ext.execute t { Hermes := h, Email := email } with
    | .error e => ("", some e)
    | .ok res =>
      match ext.html2text res with
      | .error e => ("", some e)
      | .ok s => (s, none)

/-- The plain-text pipeline as the code actually sequences it: merge engine
defaults → merge email defaults → render plain-text template → inline CSS
into the rendered string unless `DisableCSSInlining` is set → convert to
plain text → return string. -/
def specPlainTextPipelineInlined {Tmpl Prem : Type} (ext : Ext Tmpl Prem)
    (h : Hermes) (email : Email) : GoStr :=
  let h := SetDefaultHermesValues h
  let email := SetDefaultEmailValues email
  match ext.parse (themeVal h.Theme).PlainTextTemplate with
  | .error e => ("", some e)
  | .ok t =>
    match ext.execute t { Hermes := h, Email := email } with
    | .error e => ("", some e)
    | .ok res =>
      let inlined : Except GoError String :=
        if h.DisableCSSInlining then .ok res
        else
          match ext.premNew res with
          | .error e => .error e
          | .ok prem => ext.premTransform prem
      match inlined with
      | .error e => ("", some e)
      | .ok inl =>
        match ext.html2text inl with
        | .error e => ("", some e)
        | .ok s => (s, none)

/-! ### Fully-populated values -/

/-- An engine configuration is fully populated when every field the default
table covers is non-zero: a non-nil theme, a text direction, a brand name,
a copyright and a trouble text. -/
def Hermes.fullyPopulated (h : Hermes) : Prop :=
  h.Theme.isSome = true ∧ h.TextDirection ≠ "" ∧ h.Brand.Name ≠ "" ∧
    h.Brand.Copyright ≠ "" ∧ h.Brand.TroubleText ≠ ""

/-- An email is fully populated when every field the default table covers is
non-zero: non-empty intro, dictionary and outro sequences, a greeting and a
signature. -/
def Email.fullyPopulated (e : Email) : Prop :=
  e.Body.Intros ≠ [] ∧ e.Body.Dictionary ≠ [] ∧ e.Body.Outros ≠ [] ∧
    e.Body.Greeting ≠ "" ∧ e.Body.Signature ≠ ""

instance (h : Hermes) : Decidable h.fullyPopulated :=
  inferInstanceAs (Decidable (h.Theme.isSome = true ∧ h.TextDirection ≠ "" ∧
    h.Brand.Name ≠ "" ∧ h.Brand.Copyright ≠ "" ∧ h.Brand.TroubleText ≠ ""))

instance (e : Email) : Decidable e.fullyPopulated :=
  inferInstanceAs (Decidable (e.Body.Intros ≠ [] ∧ e.Body.Dictionary ≠ [] ∧
    e.Body.Outros ≠ [] ∧ e.Body.Greeting ≠ "" ∧ e.Body.Signature ≠ ""))

/-! ### Concrete fixtures used by witnesses and counterexamples -/

/-- The Go zero value of `Body`. -/
def Body.zero : Body :=
  { Name := ""
    Intros := []
    Dictionary := []
    Table := Table.zero
    Actions := []
    Outros := []
    Greeting := ""
    Signature := ""
    Title := ""
    FreeMarkdown := "" }

/-- The Go zero value of `Email` (all fields unset). -/
def emailZero : Email := { Body := Body.zero }

/-- The Go zero value of `Hermes` (all fields unset, nil theme). -/
def hermesZero : Hermes :=
  { Theme := none
    Brand := { Name := "", Link := "", Logo := "", Copyright := "", TroubleText := "" }
    TextDirection := ""
    DisableCSSInlining := false }

/-- A zero configuration except that CSS inlining is disabled. -/
def hermesDisabled : Hermes := { hermesZero with DisableCSSInlining := true }

/-- A fully populated engine configuration. -/
def hermesFull : Hermes :=
  { Theme := some defaultTheme
    Brand :=
      { Name := "Acme"
        Link := "https://acme.example"
        Logo := "https://acme.example/logo.png"
        Copyright := "Copyright Acme"
        TroubleText := "Paste the URL below." }
    TextDirection := "rtl"
    DisableCSSInlining := true }

/-- A fully populated email. -/
def emailFull : Email :=
  { Body :=
    { Body.zero with
      Name := "Jon Snow"
      Intros := ["Welcome!"]
      Dictionary := [{ Key := "code", Value := "123456" }]
      Outros := ["Need help?"]
      Greeting := "Hello"
      Signature := "Best regards" } }

/-- A concrete oracle whose stages tag their input, so the output records
which stages ran: execution renders "R", CSS inlining wraps in "P(...)",
plain-text conversion wraps in "T(...)". -/
def extTag : Ext String String :=
  { parse := fun s => .ok s
    execute := fun _ _ => .ok "R"
    premNew := fun s => .ok s
    premTransform := fun s => .ok ("P(" ++ s ++ ")")
    html2text := fun s => .ok ("T(" ++ s ++ ")") }

/-- A concrete oracle whose template parser always fails. -/
def extParseFail : Ext String String :=
  { extTag with parse := fun _ => .error "template: parse error" }

/-- A concrete oracle whose premailer constructor always fails, as on
malformed style content. -/
def extPremFail : Ext String String :=
  { extTag with premNew := fun _ => .error "premailer: malformed style" }

/-! ### Helper lemmas -/

theorem mergoString_empty_src (d : String) : mergoString d "" = d := by
  simp [mergoString]

theorem mergoList_empty_src {α : Type} [DecidableEq α] (d : List α) : mergoList d [] = d := by
  simp [mergoList]

theorem mergoAssoc_empty_src (d : List (String × String)) : mergoAssoc d [] = d := rfl

theorem mergoBool_false_src (d : Bool) : mergoBool d false = d := by
  simp [mergoBool]

theorem mergoTable_zero_src (t : Table) : mergoTable t Table.zero = t := by
  simp [mergoTable, mergoColumns, Table.zero, Columns.zero, mergoList_empty_src,
    mergoAssoc_empty_src]

/-- Function `SetDefaultHermesValues` never turns the CSS-inlining flag on or off:
the default configuration's flag is the zero value. -/
theorem setDefaultHermesValues_DisableCSSInlining (h : Hermes) :
    (SetDefaultHermesValues h).DisableCSSInlining = h.DisableCSSInlining := by
  simp [SetDefaultHermesValues, mergoHermes, defaultHermes, mergoBool_false_src]

theorem mergoString_idem (d s : String) :
    mergoString (mergoString d s) s = mergoString d s := by
  unfold mergoString
  split_ifs with h1 h2 <;> simp_all

theorem mergoTheme_idem (d s : Option Theme) :
    mergoTheme (mergoTheme d s) s = mergoTheme d s := by
  cases d <;> cases s <;> rfl

/-- Merging the engine defaults a second time changes nothing: the engine
accumulates no state in the caller's configuration beyond the one-time
default fill. -/
theorem setDefaultHermesValues_idem (h : Hermes) :
    SetDefaultHermesValues (SetDefaultHermesValues h) = SetDefaultHermesValues h := by
  simp [SetDefaultHermesValues, mergoHermes, mergoBranding, defaultHermes,
    mergoString_idem, mergoTheme_idem, mergoBool_false_src]

/-- Every error branch of `generateTemplate` pairs the error with the empty
string. -/
theorem generateTemplate_error_empty {Tmpl Prem : Type} (ext : Ext Tmpl Prem)
    (h : Hermes) (email : Email) (tplt : String) :
    (generateTemplate ext h email tplt).2 ≠ none →
      (generateTemplate ext h email tplt).1 = "" := by
  unfold generateTemplate
  cases hp : ext.parse tplt with
  | error e => simp
  | ok t =>
    cases he : ext.execute t { Hermes := h, Email := SetDefaultEmailValues email } with
    | error e => simp [he]
    | ok res =>
      simp only [he]
      by_cases hd : h.DisableCSSInlining
      · simp [hd]
      · simp only [hd, if_neg, Bool.false_eq_true, ite_false]
        cases hn : ext.premNew res with
        | error e => simp
        | ok prem =>
          cases ht : ext.premTransform prem with
          | error e => simp [ht]
          | ok html => simp [ht]

/-- Every error branch of `plainTextFinish` pairs the error with the empty
string. -/
theorem plainTextFinish_error_empty {Tmpl Prem : Type} (ext : Ext Tmpl Prem) (r : GoStr) :
    (plainTextFinish ext r).2 ≠ none → (plainTextFinish ext r).1 = "" := by
  unfold plainTextFinish
  cases hr : r.2 with
  | some e => simp
  | none =>
    cases hh : ext.html2text r.1 with
    | error e => simp
    | ok s => simp

/-! ### The claims -/

/-- C9: for every `Email` whose `Body.Greeting` (respectively
`Body.Signature`) is the empty string — whether left unset or explicitly
set empty by the caller — `SetDefaultEmailValues` sets it to "Hi"
(respectively "Yours truly").  Go cannot distinguish an explicitly-set
empty string from an unset field: both are the zero value `""` on which
the mergo rule fires. -/
theorem c9_empty_greeting_overwritten (e : Email) :
    (e.Body.Greeting = "" → (SetDefaultEmailValues e).Body.Greeting = "Hi") ∧
    (e.Body.Signature = "" → (SetDefaultEmailValues e).Body.Signature = "Yours truly") := by
  constructor <;> intro hz <;>
    simp [SetDefaultEmailValues, mergoEmail, mergoBody, mergoString, defaultEmail, hz]

theorem c9_empty_greeting_overwritten_witness :
    (emailZero.Body.Greeting = "" ∧ (SetDefaultEmailValues emailZero).Body.Greeting = "Hi") ∧
    (emailZero.Body.Signature = "" ∧
      (SetDefaultEmailValues emailZero).Body.Signature = "Yours truly") :=
  ⟨⟨rfl, (c9_empty_greeting_overwritten emailZero).1 rfl⟩,
   ⟨rfl, (c9_empty_greeting_overwritten emailZero).2 rfl⟩⟩

/-- C10: a call to `GenerateHTML` or `GeneratePlainText` leaves the
caller's `Email` value unchanged.  The Go parameter `email Email` is passed
by value (lines 156, 165, 177) and `SetDefaultEmailValues` (line 178) runs
on `generateTemplate`'s local copy only, so the caller's variable after
the call — the third component of the embedded result — is the argument
itself. -/
theorem c10_email_unchanged {Tmpl Prem : Type} (ext : Ext Tmpl Prem)
    (h : Hermes) (email : Email) :
    (GenerateHTML ext h email).2.2 = email ∧ (GeneratePlainText ext h email).2.2 = email :=
  ⟨rfl, rfl⟩

/-- C2, counterexample: `GenerateHTML` does not leave the caller-supplied
engine configuration unchanged.  The receiver is `*Hermes` (line 156) and
`SetDefaultHermesValues` (line 157) merges the defaults into it in place:
starting from the zero configuration, the caller's value afterwards is the
default-merged configuration, not the original. -/
theorem c2_counterexample :
    (GenerateHTML extTag hermesZero emailZero).2.1 ≠ hermesZero := by
  decide

/-- C2, amended: a call to `GenerateHTML` or `GeneratePlainText` updates
the caller-supplied engine configuration in place to its default-merged
value — zero-valued fields are filled in the caller's value, a
configuration that is already fully populated is left unchanged — and no
state accumulates across calls beyond that one-time fill, the merge being
idempotent. -/
theorem c2_amended_config_merged_in_place {Tmpl Prem : Type} (ext : Ext Tmpl Prem)
    (h : Hermes) (email : Email) :
    (GenerateHTML ext h email).2.1 = SetDefaultHermesValues h ∧
    (GeneratePlainText ext h email).2.1 = SetDefaultHermesValues h ∧
    SetDefaultHermesValues (SetDefaultHermesValues h) = SetDefaultHermesValues h :=
  ⟨rfl, rfl, setDefaultHermesValues_idem h⟩

/-- C4: default merging is idempotent on fully-populated values: merging
defaults into an engine configuration or email in which every defaulted
field is already non-zero changes nothing. -/
theorem c4_merge_idempotent (h : Hermes) (e : Email)
    (hf : h.fullyPopulated) (ef : e.fullyPopulated) :
    SetDefaultHermesValues h = h ∧ SetDefaultEmailValues e = e := by
  obtain ⟨th, ⟨bn, bl, blo, bc, bt⟩, td, dis⟩ := h
  obtain ⟨⟨n, intros, dict, tbl, acts, outros, g, sg, ti, fm⟩⟩ := e
  obtain ⟨hth, htd, hbn, hbc, hbt⟩ := hf
  obtain ⟨ei, ed, eo, eg, es⟩ := ef
  simp only [Hermes.fullyPopulated] at hth htd hbn hbc hbt
  constructor
  · cases th with
    | none => simp [Option.isSome] at hth
    | some t =>
      simp_all [SetDefaultHermesValues, mergoHermes, mergoBranding, mergoTheme,
        mergoString, defaultHermes, mergoBool_false_src]
  · simp_all [SetDefaultEmailValues, mergoEmail, mergoBody, mergoString, mergoList,
      defaultEmail, mergoTable_zero_src]

/-- C3: the default-merge operations fill every previously zero-value field
from the fixed default table — intros/dictionary/outros stay empty
sequences, greeting becomes "Hi", signature "Yours truly"; text direction
"ltr", brand name "Hermes", the fixed copyright and trouble-text
boilerplate, and the baseline built-in theme for a nil theme — while every
field already holding a non-zero caller-set value, and every field without
a default, is preserved unchanged. -/
theorem c3_default_merge_table (h : Hermes) (e : Email) :
    ((SetDefaultEmailValues e).Body.Greeting =
      (if e.Body.Greeting = "" then "Hi" else e.Body.Greeting)) ∧
    ((SetDefaultEmailValues e).Body.Signature =
      (if e.Body.Signature = "" then "Yours truly" else e.Body.Signature)) ∧
    ((SetDefaultEmailValues e).Body.Intros =
      (if e.Body.Intros = [] then [] else e.Body.Intros)) ∧
    ((SetDefaultEmailValues e).Body.Dictionary =
      (if e.Body.Dictionary = [] then [] else e.Body.Dictionary)) ∧
    ((SetDefaultEmailValues e).Body.Outros =
      (if e.Body.Outros = [] then [] else e.Body.Outros)) ∧
    ((SetDefaultEmailValues e).Body.Name = e.Body.Name) ∧
    ((SetDefaultEmailValues e).Body.Table = e.Body.Table) ∧
    ((SetDefaultEmailValues e).Body.Actions = e.Body.Actions) ∧
    ((SetDefaultEmailValues e).Body.Title = e.Body.Title) ∧
    ((SetDefaultEmailValues e).Body.FreeMarkdown = e.Body.FreeMarkdown) ∧
    ((SetDefaultHermesValues h).Theme = some (h.Theme.getD defaultTheme)) ∧
    ((SetDefaultHermesValues h).TextDirection =
      (if h.TextDirection = "" then "ltr" else h.TextDirection)) ∧
    ((SetDefaultHermesValues h).Brand.Name =
      (if h.Brand.Name = "" then "Hermes" else h.Brand.Name)) ∧
    ((SetDefaultHermesValues h).Brand.Copyright =
      (if h.Brand.Copyright = "" then "Copyright © 2024 Hermes. All rights reserved."
       else h.Brand.Copyright)) ∧
    ((SetDefaultHermesValues h).Brand.TroubleText =
      (if h.Brand.TroubleText = ""
       then "If you\u2019re having trouble with the button \x27\x7bACTION\x7d\x27, copy and paste the URL below into your web browser."
       else h.Brand.TroubleText)) ∧
    ((SetDefaultHermesValues h).Brand.Link = h.Brand.Link) ∧
    ((SetDefaultHermesValues h).Brand.Logo = h.Brand.Logo) ∧
    ((SetDefaultHermesValues h).DisableCSSInlining = h.DisableCSSInlining) := by
  refine ⟨?_, ?_, ?_, ?_, ?_, ?_, ?_, ?_, ?_, ?_, ?_, ?_, ?_, ?_, ?_, ?_, ?_, ?_⟩ <;>
    simp [SetDefaultEmailValues, SetDefaultHermesValues, mergoEmail, mergoBody,
      mergoHermes, mergoBranding, mergoString, mergoList, defaultEmail, defaultHermes,
      mergoTable_zero_src, mergoBool_false_src, mergoTheme] <;>
    first
      | rfl
      | (cases h.Theme <;> simp)
      | (split <;> simp_all)

theorem c4_merge_idempotent_witness :
    (hermesFull.fullyPopulated ∧ emailFull.fullyPopulated) ∧
    (SetDefaultHermesValues hermesFull = hermesFull ∧
      SetDefaultEmailValues emailFull = emailFull) :=
  ⟨⟨by decide, by decide⟩, c4_merge_idempotent hermesFull emailFull (by decide) (by decide)⟩

/-- C6: whenever `GenerateHTML` or `GeneratePlainText` returns a non-nil
error, the returned string is empty: every stage error aborts the pipeline
with `("",` the error`)` and no partial output reaches the caller. -/
theorem c6_error_yields_empty_string {Tmpl Prem : Type} (ext : Ext Tmpl Prem)
    (h : Hermes) (email : Email) :
    ((GenerateHTML ext h email).1.2 ≠ none → (GenerateHTML ext h email).1.1 = "") ∧
    ((GeneratePlainText ext h email).1.2 ≠ none → (GeneratePlainText ext h email).1.1 = "") :=
  ⟨generateTemplate_error_empty ext (SetDefaultHermesValues h) email
      (themeVal (SetDefaultHermesValues h).Theme).HTMLTemplate,
   plainTextFinish_error_empty ext
      (generateTemplate ext (SetDefaultHermesValues h) email
        (themeVal (SetDefaultHermesValues h).Theme).PlainTextTemplate)⟩

theorem c6_error_yields_empty_string_witness :
    ((GenerateHTML extParseFail hermesZero emailZero).1.2 ≠ none ∧
      (GenerateHTML extParseFail hermesZero emailZero).1.1 = "") ∧
    ((GeneratePlainText extParseFail hermesZero emailZero).1.2 ≠ none ∧
      (GeneratePlainText extParseFail hermesZero emailZero).1.1 = "") :=
  ⟨⟨by decide, (c6_error_yields_empty_string extParseFail hermesZero emailZero).1 (by decide)⟩,
   ⟨by decide, (c6_error_yields_empty_string extParseFail hermesZero emailZero).2 (by decide)⟩⟩

/-- C7: when the theme's template text does not parse, both entry points
return the parse error to the caller at render time with an empty string;
theme construction itself cannot fail, a theme being plain data (a name
and two template strings) whose contents the engine never inspects before
handing them to the parser inside `generateTemplate`. -/
theorem c7_parse_error_surfaces {Tmpl Prem : Type} (ext : Ext Tmpl Prem)
    (h : Hermes) (email : Email) (e e2 : GoError)
    (hp : ext.parse (themeVal (SetDefaultHermesValues h).Theme).HTMLTemplate = .error e)
    (hp2 : ext.parse (themeVal (SetDefaultHermesValues h).Theme).PlainTextTemplate = .error e2) :
    (GenerateHTML ext h email).1 = ("", some e) ∧
    (GeneratePlainText ext h email).1 = ("", some e2) := by
  constructor
  · show (generateTemplate ext (SetDefaultHermesValues h) email
      (themeVal (SetDefaultHermesValues h).Theme).HTMLTemplate) = ("", some e)
    unfold generateTemplate
    simp [hp]
  · show plainTextFinish ext (generateTemplate ext (SetDefaultHermesValues h) email
      (themeVal (SetDefaultHermesValues h).Theme).PlainTextTemplate) = ("", some e2)
    unfold generateTemplate
    simp [hp2, plainTextFinish]

theorem c7_parse_error_surfaces_witness :
    (extParseFail.parse
        (themeVal (SetDefaultHermesValues hermesZero).Theme).HTMLTemplate =
      .error "template: parse error") ∧
    (GenerateHTML extParseFail hermesZero emailZero).1 = ("", some "template: parse error") ∧
    (GeneratePlainText extParseFail hermesZero emailZero).1 =
      ("", some "template: parse error") := by
  refine ⟨rfl, ?_⟩
  have := c7_parse_error_surfaces extParseFail hermesZero emailZero
    "template: parse error" "template: parse error" rfl rfl
  exact this

/-- C8: Markdown-to-HTML conversion is a total deterministic function.
`blackfriday.Run` has type bytes to bytes — no error component, so
`Markdown.ToHTML` returns a plain `String` — and as a pure function it
yields identical output on identical input. -/
theorem c8_markdown_total_deterministic (run : String → String) (c c2 : Markdown)
    (hcc : c = c2) : Markdown.ToHTML run c = Markdown.ToHTML run c2 := by
  rw [hcc]

theorem c8_markdown_total_deterministic_witness :
    ("# Title" : Markdown) = "# Title" ∧
    Markdown.ToHTML (fun s => "<h1>" ++ s ++ "</h1>") "# Title" =
      Markdown.ToHTML (fun s => "<h1>" ++ s ++ "</h1>") "# Title" :=
  ⟨rfl, c8_markdown_total_deterministic (fun s => "<h1>" ++ s ++ "</h1>") "# Title" "# Title" rfl⟩

/-- C5: with the CSS-inlining disable flag set, `GenerateHTML` returns the
raw output of executing the theme template byte for byte (paired with a nil
error), with no CSS-inliner invocation at all: the whole result is
unchanged under arbitrary replacement of the two premailer operations —
including ones that always fail, as on malformed style content. -/
theorem c5_disable_css_passthrough {Tmpl Prem Prem2 : Type}
    (ext : Ext Tmpl Prem) (ext2 : Ext Tmpl Prem2)
    (hparse : ext2.parse = ext.parse) (hexec : ext2.execute = ext.execute)
    (h : Hermes) (email : Email) (hdis : h.DisableCSSInlining = true) :
    GenerateHTML ext h email = GenerateHTML ext2 h email ∧
    (∀ t s,
      ext.parse (themeVal (SetDefaultHermesValues h).Theme).HTMLTemplate = .ok t →
      ext.execute t (Template.mk (SetDefaultHermesValues h) (SetDefaultEmailValues email)) =
        .ok s →
      (GenerateHTML ext h email).1 = (s, none)) := by
  have hdis2 : (SetDefaultHermesValues h).DisableCSSInlining = true := by
    rw [setDefaultHermesValues_DisableCSSInlining]; exact hdis
  constructor
  · unfold GenerateHTML generateTemplate
    rw [hparse, hexec]
    cases hp : ext.parse ((themeVal (SetDefaultHermesValues h).Theme).HTMLTemplate) with
    | error e => simp [hp]
    | ok t =>
      simp only [hp]
      cases he : ext.execute t
          (Template.mk (SetDefaultHermesValues h) (SetDefaultEmailValues email)) with
      | error e => simp [he]
      | ok res => simp [he, hdis2]
  · intro t s hp he
    show generateTemplate ext (SetDefaultHermesValues h) email
      (themeVal (SetDefaultHermesValues h).Theme).HTMLTemplate = (s, none)
    unfold generateTemplate
    simp [hp, he, hdis2]

theorem c5_disable_css_passthrough_witness :
    hermesDisabled.DisableCSSInlining = true ∧
    GenerateHTML extTag hermesDisabled emailZero =
      GenerateHTML extPremFail hermesDisabled emailZero ∧
    (GenerateHTML extTag hermesDisabled emailZero).1 = ("R", none) := by
  have hc := c5_disable_css_passthrough extTag extPremFail rfl rfl hermesDisabled
    emailZero rfl
  exact ⟨rfl, hc.1, hc.2 "default theme html template" "R" rfl rfl⟩

/-- C1, counterexample: `GeneratePlainText` does not perform exactly the
steps merge engine defaults → merge email defaults → render plain-text
template → convert to plain text: when CSS inlining is enabled (the
default), the plain-text path also runs the CSS inliner on the rendered
template before converting, which the tagging oracle makes visible in the
output. -/
theorem c1_counterexample :
    (GeneratePlainText extTag hermesZero emailZero).1 ≠
      specPlainTextPipeline extTag hermesZero emailZero := by
  decide

/-- C1, amended: `GeneratePlainText` performs merge engine defaults →
merge email defaults → render the plain-text template → inline CSS into
the rendered string unless the disable flag is set → convert to plain text
→ return string; the CSS-inlining step sits inside the shared
`generateTemplate` stage and so belongs to the plain-text path as well as
the HTML path. -/
theorem c1_amended_plaintext_pipeline {Tmpl Prem : Type} (ext : Ext Tmpl Prem)
    (h : Hermes) (email : Email) :
    (GeneratePlainText ext h email).1 = specPlainTextPipelineInlined ext h email := by
  unfold GeneratePlainText specPlainTextPipelineInlined generateTemplate plainTextFinish
  cases hp : ext.parse ((themeVal (SetDefaultHermesValues h).Theme).PlainTextTemplate) with
  | error e => simp [hp]
  | ok t =>
    simp only [hp]
    cases he : ext.execute t
        (Template.mk (SetDefaultHermesValues h) (SetDefaultEmailValues email)) with
    | error e => simp [he]
    | ok res =>
      simp only [he]
      by_cases hd : (SetDefaultHermesValues h).DisableCSSInlining = true
      · simp only [hd, if_true]
      · simp only [Bool.not_eq_true] at hd
        simp only [hd]
        cases hn : ext.premNew res with
        | error e => simp [hn]
        | ok prem =>
          cases ht : ext.premTransform prem with
          | error e => simp [hn, ht]
          | ok s2 =>
            cases hh : ext.html2text s2 with
            | error e => simp [hn, ht, hh]
            | ok s3 => simp [hn, ht, hh]

end HermesMail
